import Mathlib

/-!
Shallow embedding of the status-page platform's core logic.

The embedding mirrors the TypeScript handlers of the repository:
* the five-valued component status enum, incident status and impact enums
  (`src/server/src/schema.ts`);
* the overall-status cascade inside `getPublicStatusPage`;
* `createIncident` with its validation, linking and impact propagation;
* `updateIncident` (direct patch path);
* `createIncidentUpdate` (append record, conditionally propagate to parent);
* `updateComponentStatus` (overwrite status, append a metric row).

Database tables are lists of rows; `now` is threaded explicitly in place of
`new Date()`.  Handlers return `Except String α × DB`: the error case carries
the unchanged database, matching the source where every `throw` happens
before any write of that handler.
-/

namespace EdgeStatus

/-- Component status enum (`componentStatusEnum` in schema.ts). -/
inductive ComponentStatus where
  | operational
  | degraded_performance
  | partial_outage
  | major_outage
  | under_maintenance
deriving DecidableEq, Repr

/-- Incident status enum (`incidentStatusEnum` in schema.ts). -/
inductive IncidentStatus where
  | investigating
  | identified
  | monitoring
  | resolved
deriving DecidableEq, Repr

/-- Incident impact enum (`incidentImpactEnum` in schema.ts). -/
inductive Impact where
  | none
  | minor
  | major
  | critical
deriving DecidableEq, Repr

/-- Maintenance window status enum (`maintenanceStatusEnum` in schema.ts). -/
inductive MaintenanceStatus where
  | scheduled
  | in_progress
  | completed
deriving DecidableEq, Repr

/-- Subscription tier enum (`subscriptionTierEnum` in schema.ts). -/
inductive SubscriptionTier where
  | free
  | starter
  | pro
  | enterprise
deriving DecidableEq, Repr

/-- Row of `organizationsTable`. Timestamps are modelled as `Nat`. -/
structure Organization where
  id : Nat
  name : String
  slug : String
  subscription_tier : SubscriptionTier
  is_active : Bool
  created_at : Nat
  updated_at : Nat
deriving DecidableEq, Repr

/-- Row of `statusPagesTable`. -/
structure StatusPage where
  id : Nat
  organization_id : Nat
  name : String
  description : Option String
  domain : Option String
  custom_css : Option String
  logo_url : Option String
  is_public : Bool
  created_at : Nat
  updated_at : Nat
deriving DecidableEq, Repr

/-- Row of `componentGroupsTable`. -/
structure ComponentGroup where
  id : Nat
  status_page_id : Nat
  name : String
  description : Option String
  sort_order : Int
  is_collapsed : Bool
  created_at : Nat
  updated_at : Nat
deriving DecidableEq, Repr

/-- Row of `componentsTable`. -/
structure Component where
  id : Nat
  status_page_id : Nat
  component_group_id : Option Nat
  name : String
  description : Option String
  status : ComponentStatus
  sort_order : Int
  is_visible : Bool
  created_at : Nat
  updated_at : Nat
deriving DecidableEq, Repr

/-- Row of `incidentsTable`. -/
structure Incident where
  id : Nat
  status_page_id : Nat
  name : String
  description : String
  status : IncidentStatus
  impact : Impact
  started_at : Nat
  resolved_at : Option Nat
  created_at : Nat
  updated_at : Nat
deriving DecidableEq, Repr

/-- Row of `incidentUpdatesTable`. -/
structure IncidentUpdate where
  id : Nat
  incident_id : Nat
  title : String
  body : String
  status : IncidentStatus
  created_at : Nat
  updated_at : Nat
deriving DecidableEq, Repr

/-- Row of `incidentComponentsTable` (incident ↔ component junction). -/
structure IncidentComponent where
  id : Nat
  incident_id : Nat
  component_id : Nat
  created_at : Nat
deriving DecidableEq, Repr

/-- Row of `maintenanceWindowsTable`. -/
structure MaintenanceWindow where
  id : Nat
  status_page_id : Nat
  name : String
  description : String
  status : MaintenanceStatus
  scheduled_start : Nat
  scheduled_end : Nat
  actual_start : Option Nat
  actual_end : Option Nat
  created_at : Nat
  updated_at : Nat
deriving DecidableEq, Repr

/-- Row of `metricsTable`. -/
structure Metric where
  id : Nat
  component_id : Nat
  timestamp : Nat
  status : ComponentStatus
  response_time : Option Int
  created_at : Nat
deriving DecidableEq, Repr

/-- The database: each table is a list of rows, in insertion order. -/
structure DB where
  organizations : List Organization
  statusPages : List StatusPage
  componentGroups : List ComponentGroup
  components : List Component
  incidents : List Incident
  incidentUpdates : List IncidentUpdate
  incidentComponents : List IncidentComponent
  maintenanceWindows : List MaintenanceWindow
  metrics : List Metric
deriving DecidableEq, Repr

/-! ## Overall status resolver (`getPublicStatusPage`, lines 113-131) -/

/-- The overall-status cascade embodied in `getPublicStatusPage`: start from
`operational`; when the component list is non-empty, check the four `some`
predicates and take the first match of the priority chain. -/
def resolveOverallStatus (components : List Component) : ComponentStatus :=
  if components.length > 0 then
    let hasOutage := components.any (fun c => c.status == ComponentStatus.major_outage)
    let hasPartialOutage := components.any (fun c => c.status == ComponentStatus.partial_outage)
    let hasDegraded := components.any (fun c => c.status == ComponentStatus.degraded_performance)
    let hasMaintenance := components.any (fun c => c.status == ComponentStatus.under_maintenance)
    if hasOutage then ComponentStatus.major_outage
    else if hasPartialOutage then ComponentStatus.partial_outage
    else if hasDegraded then ComponentStatus.degraded_performance
    else if hasMaintenance then ComponentStatus.under_maintenance
    else ComponentStatus.operational
  else ComponentStatus.operational

/-- Return type of `getPublicStatusPage` (`publicStatusPageSchema`). -/
structure PublicStatusPage where
  status_page : StatusPage
  overall_status : ComponentStatus
  component_groups : List ComponentGroup
  components : List Component
  active_incidents : List Incident
  upcoming_maintenance : List MaintenanceWindow
deriving DecidableEq, Repr

/-- Handler `getPublicStatusPage(slug)`: inner-join organizations with status pages on
`organization_id`, filtered to the given slug, `is_public`, `is_active`; if the
join is empty return `none`, else take the first row's status page, fetch its
groups, visible components, non-resolved incidents and upcoming maintenance
windows, and compute the overall status from the visible components.
`publicPageJoin` is the handler's opening query: the inner join of
organizations and status pages on `organization_id`, filtered by slug,
`is_public` and `is_active`. -/
def publicPageJoin (db : DB) (slug : String) : List (Organization × StatusPage) :=
  (db.organizations.flatMap (fun org =>
    (db.statusPages.filter (fun sp => sp.organization_id == org.id)).map
      (fun sp => (org, sp)))).filter
    (fun p => p.1.slug == slug && p.2.is_public && p.1.is_active)

def getPublicStatusPage (now : Nat) (db : DB) (slug : String) : Option PublicStatusPage :=
  match publicPageJoin db slug with
  | [] => none
  | r :: _ =>
    let statusPage := r.2
    let componentGroups := db.componentGroups.filter
      (fun g => g.status_page_id == statusPage.id)
    let components := db.components.filter
      (fun c => c.status_page_id == statusPage.id && c.is_visible)
    let activeIncidents := db.incidents.filter
      (fun i => i.status_page_id == statusPage.id)
    let filteredActiveIncidents := activeIncidents.filter
      (fun i => i.status != IncidentStatus.resolved)
    let upcomingMaintenance := db.maintenanceWindows.filter
      (fun w => w.status_page_id == statusPage.id && now ≤ w.scheduled_start)
    some {
      status_page := statusPage
      overall_status := resolveOverallStatus components
      component_groups := componentGroups
      components := components
      active_incidents := filteredActiveIncidents
      upcoming_maintenance := upcomingMaintenance }

/-! ## Incident creation and impact propagation (`create_incident.ts`) -/

/-- Input of `createIncident` (`createIncidentInputSchema`). -/
structure CreateIncidentInput where
  status_page_id : Nat
  name : String
  description : String
  status : IncidentStatus
  impact : Impact
  started_at : Option Nat
  component_ids : Option (List Nat)
deriving DecidableEq, Repr

/-- The `switch (input.impact)` of `createIncident`: map an incident impact to
the component status it propagates (default branch covers `none`). -/
def impactToStatus : Impact → ComponentStatus
  | Impact.critical => ComponentStatus.major_outage
  | Impact.major => ComponentStatus.partial_outage
  | Impact.minor => ComponentStatus.degraded_performance
  | _ => ComponentStatus.operational

/-- One iteration of the propagation loop: `UPDATE components SET status,
updated_at WHERE id = componentId`. -/
def setComponentStatusRow (now : Nat) (st : ComponentStatus) (componentId : Nat)
    (components : List Component) : List Component :=
  components.map (fun c =>
    if c.id == componentId then { c with status := st, updated_at := now } else c)

/-- The `for (const componentId of input.component_ids)` loop of
`createIncident`: apply the status write to each linked component in order. -/
def propagateWrites (now : Nat) (st : ComponentStatus) (componentIds : List Nat)
    (components : List Component) : List Component :=
  componentIds.foldl (fun acc componentId => setComponentStatusRow now st componentId acc) components

/-- The impact-to-status write step of `createIncident` (lines 63-91): compute
the target status from the impact; only when it is not `operational`, overwrite
each linked component's status. -/
def applyIncidentImpact (now : Nat) (impact : Impact) (componentIds : List Nat)
    (components : List Component) : List Component :=
  let newComponentStatus := impactToStatus impact
  if newComponentStatus != ComponentStatus.operational then
    propagateWrites now newComponentStatus componentIds components
  else components

/-- The component-id validation of `createIncident` (lines 18-35): when ids are
provided and non-empty, the ids among them that are not ids of components of
the incident's status page; the handler throws when this list is non-empty. -/
def invalidComponentIds (db : DB) (input : CreateIncidentInput) : List Nat :=
  match input.component_ids with
  | some ids =>
    if ids.length > 0 then
      let components : List Component := db.components.filter
        (fun c => c.status_page_id == input.status_page_id)
      let validComponentIds : List Nat := components.map (fun c => c.id)
      ids.filter (fun i => !(validComponentIds.contains i))
    else []
  | none => []

/-- The tail of `createIncident` (lines 52-92): when component ids are provided
and non-empty, insert the incident↔component links and apply the
impact-to-status write step; otherwise leave the database as it is after the
incident insert. -/
def linkAndPropagate (now : Nat) (incident : Incident) (input : CreateIncidentInput)
    (db1 : DB) : DB :=
  match input.component_ids with
  | some ids =>
    if ids.length > 0 then
      let componentLinks := ids.enum.map (fun p =>
        { id := db1.incidentComponents.length + 1 + p.1
          incident_id := incident.id
          component_id := p.2
          created_at := now : IncidentComponent })
      let db2 := { db1 with
        incidentComponents := db1.incidentComponents ++ componentLinks }
      { db2 with
        components := applyIncidentImpact now input.impact ids db2.components }
    else db1
  | none => db1

/-- Handler `createIncident`: validate the status page exists; validate every linked
component id belongs to the status page; insert the incident; insert the
incident↔component links; propagate the impact onto the linked components.
Both validations precede every insert, as in the source. -/
def createIncident (now : Nat) (db : DB) (input : CreateIncidentInput) :
    Except String Incident × DB :=
  let statusPage := db.statusPages.filter (fun sp => sp.id == input.status_page_id)
  if statusPage.length == 0 then
    (Except.error ("Status page with id " ++ toString input.status_page_id ++ " not found"), db)
  else
    let invalidComponents : List Nat := invalidComponentIds db input
    if invalidComponents.length > 0 then
      (Except.error ("Components with ids " ++ toString invalidComponents ++
        " not found or do not belong to status page " ++ toString input.status_page_id), db)
    else
      let incident : Incident := {
        id := db.incidents.length + 1
        status_page_id := input.status_page_id
        name := input.name
        description := input.description
        status := input.status
        impact := input.impact
        started_at := input.started_at.getD now
        resolved_at := none
        created_at := now
        updated_at := now }
      let db1 := { db with incidents := db.incidents ++ [incident] }
      (Except.ok incident, linkAndPropagate now incident input db1)

/-! ## Direct incident update (`updateIncident`) -/

/-- Input of `updateIncident` (`updateIncidentInputSchema`); `none` models an
omitted (`undefined`) field. -/
structure UpdateIncidentInput where
  incident_id : Nat
  name : Option String
  description : Option String
  status : Option IncidentStatus
  impact : Option Impact
deriving DecidableEq, Repr

/-- The `updateData` object of `updateIncident` applied to one incident row:
always refresh `updated_at`; copy each provided field; when the provided status
is `resolved`, also stamp `resolved_at` with the current time. -/
def applyIncidentPatch (now : Nat) (input : UpdateIncidentInput) (i : Incident) : Incident :=
  let i1 := { i with updated_at := now }
  let i2 := match input.name with
    | some n => { i1 with name := n }
    | none => i1
  let i3 := match input.description with
    | some d => { i2 with description := d }
    | none => i2
  let i4 := match input.status with
    | some s =>
      if s == IncidentStatus.resolved then { i3 with status := s, resolved_at := some now }
      else { i3 with status := s }
    | none => i3
  match input.impact with
  | some im => { i4 with impact := im }
  | none => i4

/-- Handler `updateIncident`: `UPDATE incidents SET updateData WHERE id = incident_id
RETURNING`; when no row matches, throw `not found` (and nothing was written). -/
def updateIncident (now : Nat) (db : DB) (input : UpdateIncidentInput) :
    Except String Incident × DB :=
  match db.incidents.filter (fun i => i.id == input.incident_id) with
  | [] =>
    (Except.error ("Incident with id " ++ toString input.incident_id ++ " not found"), db)
  | r :: _ =>
    (Except.ok (applyIncidentPatch now input r),
     { db with incidents := db.incidents.map (fun i =>
         if i.id == input.incident_id then applyIncidentPatch now input i else i) })

/-! ## Incident update records (`createIncidentUpdate`) -/

/-- Input of `createIncidentUpdate` (`createIncidentUpdateInputSchema`). -/
structure CreateIncidentUpdateInput where
  incident_id : Nat
  title : String
  body : String
  status : IncidentStatus
deriving DecidableEq, Repr

/-- Handler `createIncidentUpdate`: verify the incident exists; always insert the new
incident-update record; then, only if the input status differs from the
incident's current status, overwrite the incident's status, recompute
`resolved_at` (`now` when resolving, `null` otherwise) and refresh
`updated_at`. -/
def createIncidentUpdate (now : Nat) (db : DB) (input : CreateIncidentUpdateInput) :
    Except String IncidentUpdate × DB :=
  match db.incidents.filter (fun i => i.id == input.incident_id) with
  | [] =>
    (Except.error ("Incident with ID " ++ toString input.incident_id ++ " not found"), db)
  | currentIncident :: _ =>
    let incidentUpdate : IncidentUpdate := {
      id := db.incidentUpdates.length + 1
      incident_id := input.incident_id
      title := input.title
      body := input.body
      status := input.status
      created_at := now
      updated_at := now }
    let db1 := { db with incidentUpdates := db.incidentUpdates ++ [incidentUpdate] }
    if currentIncident.status != input.status then
      (Except.ok incidentUpdate,
       { db1 with incidents := db1.incidents.map (fun i =>
           if i.id == input.incident_id then
             { i with
               status := input.status
               resolved_at := if input.status == IncidentStatus.resolved then some now else none
               updated_at := now }
           else i) })
    else (Except.ok incidentUpdate, db1)

/-! ## Component status update (`update_component_status.ts`, implemented
version) -/

/-- Input of `updateComponentStatus` (`updateComponentStatusInputSchema`). -/
structure UpdateComponentStatusInput where
  component_id : Nat
  status : ComponentStatus
deriving DecidableEq, Repr

/-- Handler `updateComponentStatus`: verify the component exists (throw `not found`
otherwise, before any write); overwrite its status and `updated_at`
unconditionally; insert one metric row carrying the same status and the
current timestamp. -/
def updateComponentStatus (now : Nat) (db : DB) (input : UpdateComponentStatusInput) :
    Except String Component × DB :=
  match db.components.filter (fun c => c.id == input.component_id) with
  | [] =>
    (Except.error ("Component with id " ++ toString input.component_id ++ " not found"), db)
  | c0 :: _ =>
    let updatedComponent := { c0 with status := input.status, updated_at := now }
    let db1 : DB := { db with components := db.components.map (fun c =>
        if c.id == input.component_id then { c with status := input.status, updated_at := now }
        else c) }
    let metric : Metric := {
      id := db1.metrics.length + 1
      component_id := input.component_id
      timestamp := now
      status := input.status
      response_time := none
      created_at := now }
    (Except.ok updatedComponent, { db1 with metrics := db1.metrics ++ [metric] })

/-! ## Concrete fixtures used by the witness theorems -/

/-- A database with every table empty. -/
def emptyDB : DB :=
  { organizations := []
    statusPages := []
    componentGroups := []
    components := []
    incidents := []
    incidentUpdates := []
    incidentComponents := []
    maintenanceWindows := []
    metrics := [] }

/-- Fixture organization. -/
def orgA : Organization :=
  { id := 1
    name := "Acme"
    slug := "acme"
    subscription_tier := SubscriptionTier.free
    is_active := true
    created_at := 0
    updated_at := 0 }

/-- Fixture status page belonging to `orgA`. -/
def pageA : StatusPage :=
  { id := 1
    organization_id := 1
    name := "Main"
    description := none
    domain := none
    custom_css := none
    logo_url := none
    is_public := true
    created_at := 0
    updated_at := 0 }

/-- Fixture component on `pageA`. -/
def compA : Component :=
  { id := 1
    status_page_id := 1
    component_group_id := none
    name := "API"
    description := none
    status := ComponentStatus.operational
    sort_order := 0
    is_visible := true
    created_at := 0
    updated_at := 0 }

/-- Second fixture component on `pageA`. -/
def compB : Component :=
  { compA with id := 2, name := "DB" }

/-- Fixture database with one organization, one public page, two components. -/
def dbA : DB :=
  { emptyDB with
    organizations := [orgA]
    statusPages := [pageA]
    components := [compA, compB] }

/-! ## Generic list lemmas shared by several claims -/

/-- Permutation-invariance of `List.any`. -/
theorem any_eq_of_perm {α : Type} {l₁ l₂ : List α} (h : l₁.Perm l₂) (p : α → Bool) :
    l₁.any p = l₂.any p := by
  apply Bool.eq_iff_iff.mpr
  simp only [List.any_eq_true]
  exact ⟨fun ⟨x, hx, hp⟩ => ⟨x, h.mem_iff.mp hx, hp⟩,
         fun ⟨x, hx, hp⟩ => ⟨x, h.mem_iff.mpr hx, hp⟩⟩

/-! ## C1 -/

/-- Modelled from the claim's wording: return `major_outage` if any component
has it; otherwise `partial_outage` if any; otherwise `degraded_performance` if
any; otherwise `under_maintenance` if any; otherwise (empty list included)
`operational`. -/
def overallStatusSpec (components : List Component) : ComponentStatus :=
  if components.any (fun c => c.status == ComponentStatus.major_outage) then
    ComponentStatus.major_outage
  else if components.any (fun c => c.status == ComponentStatus.partial_outage) then
    ComponentStatus.partial_outage
  else if components.any (fun c => c.status == ComponentStatus.degraded_performance) then
    ComponentStatus.degraded_performance
  else if components.any (fun c => c.status == ComponentStatus.under_maintenance) then
    ComponentStatus.under_maintenance
  else ComponentStatus.operational

/-- C1: for every component list, the overall-status computation of
`getPublicStatusPage` agrees with the spec's priority cascade — `major_outage`
dominates, then `partial_outage`, then `degraded_performance`, then
`under_maintenance`, and `operational` otherwise (empty and all-operational
lists included). -/
theorem C1_resolveOverallStatus_cascade (components : List Component) :
    resolveOverallStatus components = overallStatusSpec components := by
  cases components with
  | nil => rfl
  | cons c cs =>
    unfold resolveOverallStatus overallStatusSpec
    simp

/-! ## C7 -/

/-- C7: the overall-status computation is order-irrelevant — permuting the
component list never changes the resolved status. -/
theorem C7_resolveOverallStatus_perm (l₁ l₂ : List Component) (h : l₁.Perm l₂) :
    resolveOverallStatus l₁ = resolveOverallStatus l₂ := by
  unfold resolveOverallStatus
  rw [h.length_eq, any_eq_of_perm h, any_eq_of_perm h, any_eq_of_perm h, any_eq_of_perm h]

/-- Witness for C7 at a concrete two-element permutation. -/
theorem C7_witness :
    ([compA, { compB with status := ComponentStatus.partial_outage }].Perm
      [{ compB with status := ComponentStatus.partial_outage }, compA]) ∧
    resolveOverallStatus [compA, { compB with status := ComponentStatus.partial_outage }] =
      resolveOverallStatus [{ compB with status := ComponentStatus.partial_outage }, compA] :=
  ⟨List.Perm.swap _ _ _,
   C7_resolveOverallStatus_perm _ _ (List.Perm.swap _ _ _)⟩

/-! ## Propagation lemmas shared by C2 and C6 -/

/-- Characterization of the propagation loop: each component whose id is among
the linked ids ends with the target status and refreshed timestamp; every other
row is untouched. -/
theorem propagateWrites_eq (now : Nat) (st : ComponentStatus) (ids : List Nat)
    (comps : List Component) :
    propagateWrites now st ids comps =
      comps.map (fun c =>
        if ids.contains c.id then { c with status := st, updated_at := now } else c) := by
  induction ids generalizing comps with
  | nil =>
    simp [propagateWrites]
  | cons i is ih =>
    have h1 : propagateWrites now st (i :: is) comps =
        propagateWrites now st is (setComponentStatusRow now st i comps) := rfl
    rw [h1, ih, setComponentStatusRow, List.map_map]
    apply List.map_congr_left
    intro c hc
    by_cases h : c.id = i
    · by_cases h2 : is.contains c.id = true <;> simp [Function.comp, h, h2]
    · by_cases h2 : is.contains c.id = true <;> simp [Function.comp, h, h2]

/-- Running the propagation loop twice with the same target status gives the
same id/status column as running it once. -/
theorem propagate_status_idem (now now2 : Nat) (st : ComponentStatus) (ids : List Nat)
    (comps : List Component) :
    (propagateWrites now2 st ids (propagateWrites now st ids comps)).map
        (fun c => (c.id, c.status)) =
      (propagateWrites now st ids comps).map (fun c => (c.id, c.status)) := by
  simp only [propagateWrites_eq, List.map_map]
  apply List.map_congr_left
  intro c hc
  by_cases h2 : c.id ∈ ids <;> simp [Function.comp, h2]

/-! ## C6 -/

/-- C6: the impact-to-status write step of `createIncident` is idempotent on
component statuses — re-applying the same impact to the same linked components
(at any later time) leaves every component's status as after the first
application. -/
theorem C6_applyIncidentImpact_idempotent (now now2 : Nat) (impact : Impact)
    (ids : List Nat) (comps : List Component) :
    (applyIncidentImpact now2 impact ids (applyIncidentImpact now impact ids comps)).map
        (fun c => (c.id, c.status)) =
      (applyIncidentImpact now impact ids comps).map (fun c => (c.id, c.status)) := by
  cases impact with
  | none => simp [applyIncidentImpact, impactToStatus]
  | minor =>
    simpa [applyIncidentImpact, impactToStatus] using
      propagate_status_idem now now2 ComponentStatus.degraded_performance ids comps
  | major =>
    simpa [applyIncidentImpact, impactToStatus] using
      propagate_status_idem now now2 ComponentStatus.partial_outage ids comps
  | critical =>
    simpa [applyIncidentImpact, impactToStatus] using
      propagate_status_idem now now2 ComponentStatus.major_outage ids comps

/-! ## C2 -/

/-- On success, the database returned by `createIncident` is the incident
insert followed by the link-and-propagate tail. -/
theorem createIncident_ok_db (now : Nat) (db : DB) (input : CreateIncidentInput)
    (inc : Incident) (db2 : DB)
    (h : createIncident now db input = (Except.ok inc, db2)) :
    db2 = linkAndPropagate now inc input { db with incidents := db.incidents ++ [inc] } := by
  unfold createIncident at h
  simp only [] at h
  split at h
  · exact absurd h (by simp)
  · split at h
    · exact absurd h (by simp)
    · rw [Prod.mk.injEq] at h
      obtain ⟨h1, h2⟩ := h
      rw [Except.ok.injEq] at h1
      rw [← h2, ← h1]

/-- With a non-empty linked id list, the tail of `createIncident` changes the
components table exactly by the impact-to-status write step. -/
theorem linkAndPropagate_components (now : Nat) (incident : Incident)
    (input : CreateIncidentInput) (db1 : DB) (ids : List Nat)
    (hids : input.component_ids = some ids) (hpos : 0 < ids.length) :
    (linkAndPropagate now incident input db1).components =
      applyIncidentImpact now input.impact ids db1.components := by
  unfold linkAndPropagate
  rw [hids]
  simp [hpos]

/-- Id/status column of the propagation loop's result. -/
theorem propagateWrites_status_col (now : Nat) (st : ComponentStatus) (ids : List Nat)
    (comps : List Component) :
    (propagateWrites now st ids comps).map (fun c => (c.id, c.status)) =
      comps.map (fun c => (c.id, if ids.contains c.id then st else c.status)) := by
  simp only [propagateWrites_eq, List.map_map]
  apply List.map_congr_left
  intro c hc
  by_cases h2 : c.id ∈ ids <;> simp [Function.comp, h2]

/-- C2: a successful `createIncident` call with a non-empty list of linked
component ids overwrites every linked component's status unconditionally —
`critical` sets `major_outage`, `major` sets `partial_outage`, `minor` sets
`degraded_performance` — while other components keep their status, and an
impact of `none` writes no component at all. -/
theorem C2_createIncident_propagation (now : Nat) (db : DB) (input : CreateIncidentInput)
    (ids : List Nat) (inc : Incident) (db2 : DB)
    (hids : input.component_ids = some ids) (hne : ids ≠ [])
    (h : createIncident now db input = (Except.ok inc, db2)) :
    (input.impact = Impact.none → db2.components = db.components) ∧
    db2.components.map (fun c => (c.id, c.status)) =
      db.components.map (fun c =>
        (c.id,
          if ids.contains c.id then
            match input.impact with
            | Impact.critical => ComponentStatus.major_outage
            | Impact.major => ComponentStatus.partial_outage
            | Impact.minor => ComponentStatus.degraded_performance
            | Impact.none => c.status
          else c.status)) := by
  have hpos : 0 < ids.length := List.length_pos.mpr hne
  have hdb := createIncident_ok_db now db input inc db2 h
  have hcomps : db2.components = applyIncidentImpact now input.impact ids db.components := by
    rw [hdb, linkAndPropagate_components now inc input _ ids hids hpos]
  constructor
  · intro hnone
    rw [hcomps, hnone]
    simp [applyIncidentImpact, impactToStatus]
  · rw [hcomps]
    cases input.impact with
    | none => simp [applyIncidentImpact, impactToStatus]
    | minor => simp [applyIncidentImpact, impactToStatus, propagateWrites_status_col]
    | major => simp [applyIncidentImpact, impactToStatus, propagateWrites_status_col]
    | critical => simp [applyIncidentImpact, impactToStatus, propagateWrites_status_col]

/-- Concrete input for the C2 witness: a critical incident linked to both
fixture components. -/
def witC2Input : CreateIncidentInput :=
  { status_page_id := 1
    name := "Outage"
    description := "db down"
    status := IncidentStatus.investigating
    impact := Impact.critical
    started_at := none
    component_ids := some [1, 2] }

/-- The incident row `createIncident 5 dbA witC2Input` inserts. -/
def witC2Incident : Incident :=
  { id := 1
    status_page_id := 1
    name := "Outage"
    description := "db down"
    status := IncidentStatus.investigating
    impact := Impact.critical
    started_at := 5
    resolved_at := none
    created_at := 5
    updated_at := 5 }

/-- The database state after `createIncident 5 dbA witC2Input`. -/
def witC2DB : DB :=
  { dbA with
    components :=
      [{ compA with status := ComponentStatus.major_outage, updated_at := 5 },
       { compB with status := ComponentStatus.major_outage, updated_at := 5 }]
    incidents := [witC2Incident]
    incidentComponents :=
      [{ id := 1, incident_id := 1, component_id := 1, created_at := 5 },
       { id := 2, incident_id := 1, component_id := 2, created_at := 5 }] }

/-- Witness for C2 at the concrete critical-impact input. -/
theorem C2_witness :
    witC2Input.component_ids = some [1, 2] ∧ ([1, 2] : List Nat) ≠ [] ∧
    createIncident 5 dbA witC2Input = (Except.ok witC2Incident, witC2DB) ∧
    ((witC2Input.impact = Impact.none → witC2DB.components = dbA.components) ∧
      witC2DB.components.map (fun c => (c.id, c.status)) =
        dbA.components.map (fun c =>
          (c.id,
            if List.contains [1, 2] c.id then
              match witC2Input.impact with
              | Impact.critical => ComponentStatus.major_outage
              | Impact.major => ComponentStatus.partial_outage
              | Impact.minor => ComponentStatus.degraded_performance
              | Impact.none => c.status
            else c.status))) :=
  ⟨rfl, by decide, rfl,
   C2_createIncident_propagation 5 dbA witC2Input [1, 2] witC2Incident witC2DB rfl
     (by decide) rfl⟩

/-! ## C3 -/

/-- The direct-update patch never changes an incident's id. -/
theorem applyIncidentPatch_id (now : Nat) (input : UpdateIncidentInput) (i : Incident) :
    (applyIncidentPatch now input i).id = i.id := by
  obtain ⟨iid, nm, ds, st, im⟩ := input
  cases st with
  | none => cases nm <;> cases ds <;> cases im <;> simp [applyIncidentPatch]
  | some s =>
    by_cases h : s = IncidentStatus.resolved <;>
      cases nm <;> cases ds <;> cases im <;> simp [applyIncidentPatch, h]

/-- The direct-update patch stamps `resolved_at` with the current time exactly
when the patch carries `status = resolved`, and leaves it unchanged in every
other case (status omitted or non-resolved). -/
theorem applyIncidentPatch_resolved_at (now : Nat) (input : UpdateIncidentInput) (i : Incident) :
    (applyIncidentPatch now input i).resolved_at =
      if input.status = some IncidentStatus.resolved then some now else i.resolved_at := by
  obtain ⟨iid, nm, ds, st, im⟩ := input
  cases st with
  | none => cases nm <;> cases ds <;> cases im <;> simp [applyIncidentPatch]
  | some s =>
    by_cases h : s = IncidentStatus.resolved <;>
      cases nm <;> cases ds <;> cases im <;> simp [applyIncidentPatch, h]

/-- On success, `updateIncident` applies the patch to the matching rows and
nothing else. -/
theorem updateIncident_ok_db (now : Nat) (db : DB) (input : UpdateIncidentInput)
    (inc : Incident) (db2 : DB)
    (h : updateIncident now db input = (Except.ok inc, db2)) :
    db2 = { db with incidents := db.incidents.map (fun i =>
        if i.id == input.incident_id then applyIncidentPatch now input i else i) } := by
  unfold updateIncident at h
  cases hf : db.incidents.filter (fun i => i.id == input.incident_id) with
  | nil =>
    rw [hf] at h
    exact absurd h (by simp)
  | cons r t =>
    rw [hf] at h
    rw [Prod.mk.injEq] at h
    exact h.2.symm

/-- C3: on the direct incident-update path, `resolved_at` is set to the current
time exactly when the patch's status field is `resolved`; when the status field
is omitted or carries a non-resolved value, the stored `resolved_at` of every
incident is left unchanged (in particular it is never cleared to null). -/
theorem C3_updateIncident_resolved_at (now : Nat) (db : DB) (input : UpdateIncidentInput)
    (inc : Incident) (db2 : DB)
    (h : updateIncident now db input = (Except.ok inc, db2)) :
    db2.incidents.map (fun i => (i.id, i.resolved_at)) =
      db.incidents.map (fun i =>
        (i.id,
          if i.id = input.incident_id ∧ input.status = some IncidentStatus.resolved
          then some now else i.resolved_at)) := by
  rw [updateIncident_ok_db now db input inc db2 h]
  simp only [List.map_map]
  apply List.map_congr_left
  intro i hi
  by_cases hid : i.id = input.incident_id
  · by_cases hst : input.status = some IncidentStatus.resolved <;>
      simp [Function.comp, hid, hst, applyIncidentPatch_id, applyIncidentPatch_resolved_at]
  · simp [Function.comp, hid]

/-- Incident fixture for the C3 witness: monitoring, not yet resolved. -/
def witC3Incident : Incident :=
  { id := 1
    status_page_id := 1
    name := "Inc"
    description := "d"
    status := IncidentStatus.monitoring
    impact := Impact.minor
    started_at := 1
    resolved_at := none
    created_at := 1
    updated_at := 1 }

/-- Database for the C3 witness. -/
def dbC3 : DB := { dbA with incidents := [witC3Incident] }

/-- Patch for the C3 witness: only the status field, set to `resolved`. -/
def witC3Input : UpdateIncidentInput :=
  { incident_id := 1
    name := none
    description := none
    status := some IncidentStatus.resolved
    impact := none }

/-- The incident row returned by `updateIncident 9 dbC3 witC3Input`. -/
def witC3Out : Incident :=
  { witC3Incident with
    status := IncidentStatus.resolved
    resolved_at := some 9
    updated_at := 9 }

/-- Witness for C3: resolving through the direct path stamps `resolved_at`. -/
theorem C3_witness :
    updateIncident 9 dbC3 witC3Input = (Except.ok witC3Out, { dbC3 with incidents := [witC3Out] }) ∧
    ({ dbC3 with incidents := [witC3Out] } : DB).incidents.map (fun i => (i.id, i.resolved_at)) =
      dbC3.incidents.map (fun i =>
        (i.id,
          if i.id = witC3Input.incident_id ∧ witC3Input.status = some IncidentStatus.resolved
          then some 9 else i.resolved_at)) :=
  ⟨rfl, C3_updateIncident_resolved_at 9 dbC3 witC3Input witC3Out
    { dbC3 with incidents := [witC3Out] } rfl⟩

/-! ## C4 -/

/-- C4: a `createIncidentUpdate` whose status differs from the incident's
current status overwrites the incident's status and recomputes `resolved_at` —
the current time when resolving, null otherwise; so leaving `resolved` through
an update record clears `resolved_at`. -/
theorem C4_createIncidentUpdate_propagates (now : Nat) (db : DB)
    (input : CreateIncidentUpdateInput) (cur : Incident) (upd : IncidentUpdate) (db2 : DB)
    (hcur : (db.incidents.filter (fun i => i.id == input.incident_id)).head? = some cur)
    (hne : cur.status ≠ input.status)
    (h : createIncidentUpdate now db input = (Except.ok upd, db2)) :
    db2.incidents.map (fun i => (i.id, i.status, i.resolved_at)) =
      db.incidents.map (fun i =>
        if i.id = input.incident_id then
          (i.id, input.status,
            if input.status = IncidentStatus.resolved then some now else none)
        else (i.id, i.status, i.resolved_at)) := by
  unfold createIncidentUpdate at h
  cases hf : db.incidents.filter (fun i => i.id == input.incident_id) with
  | nil =>
    rw [hf] at hcur
    simp at hcur
  | cons r t =>
    rw [hf] at h hcur
    simp only [List.head?_cons, Option.some.injEq] at hcur
    subst hcur
    simp only [] at h
    split at h
    · rw [Prod.mk.injEq] at h
      obtain ⟨h1, h2⟩ := h
      rw [← h2]
      simp only [List.map_map]
      apply List.map_congr_left
      intro i hi
      by_cases hid : i.id = input.incident_id
      · by_cases hst : input.status = IncidentStatus.resolved <;>
          simp [Function.comp, hid, hst]
      · simp [Function.comp, hid]
    · rename_i hcond
      simp at hcond
      exact absurd hcond hne

/-- Incident fixture for the C4/C5 witnesses: already resolved at time 3. -/
def witC4Incident : Incident :=
  { witC3Incident with status := IncidentStatus.resolved, resolved_at := some 3 }

/-- Database for the C4/C5 witnesses. -/
def dbC4 : DB := { dbA with incidents := [witC4Incident] }

/-- Update-record input for the C4 witness: status `monitoring`, differing from
the incident's stored `resolved`. -/
def witC4Input : CreateIncidentUpdateInput :=
  { incident_id := 1
    title := "t"
    body := "b"
    status := IncidentStatus.monitoring }

/-- The incident-update record inserted by `createIncidentUpdate 9 dbC4 witC4Input`. -/
def witC4Rec : IncidentUpdate :=
  { id := 1
    incident_id := 1
    title := "t"
    body := "b"
    status := IncidentStatus.monitoring
    created_at := 9
    updated_at := 9 }

/-- The database after `createIncidentUpdate 9 dbC4 witC4Input`: the incident
left `resolved`, so its `resolved_at` was cleared. -/
def witC4DB : DB :=
  { dbC4 with
    incidentUpdates := [witC4Rec]
    incidents :=
      [{ witC4Incident with
          status := IncidentStatus.monitoring
          resolved_at := none
          updated_at := 9 }] }

/-- Witness for C4: transitioning out of `resolved` via an update record
clears `resolved_at`. -/
theorem C4_witness :
    (dbC4.incidents.filter (fun i => i.id == witC4Input.incident_id)).head? =
      some witC4Incident ∧
    witC4Incident.status ≠ witC4Input.status ∧
    createIncidentUpdate 9 dbC4 witC4Input = (Except.ok witC4Rec, witC4DB) ∧
    witC4DB.incidents.map (fun i => (i.id, i.status, i.resolved_at)) =
      dbC4.incidents.map (fun i =>
        if i.id = witC4Input.incident_id then
          (i.id, witC4Input.status,
            if witC4Input.status = IncidentStatus.resolved then some 9 else none)
        else (i.id, i.status, i.resolved_at)) :=
  ⟨rfl, by decide, rfl,
   C4_createIncidentUpdate_propagates 9 dbC4 witC4Input witC4Incident witC4Rec witC4DB
     rfl (by decide) rfl⟩

/-! ## C5 -/

/-- C5: every successful `createIncidentUpdate` appends exactly one new
incident-update record — even when the input status equals the incident's
current status — and in the equal-status case the incident row itself is not
modified in any field. -/
theorem C5_createIncidentUpdate_append (now : Nat) (db : DB)
    (input : CreateIncidentUpdateInput) (upd : IncidentUpdate) (db2 : DB)
    (h : createIncidentUpdate now db input = (Except.ok upd, db2)) :
    db2.incidentUpdates = db.incidentUpdates ++ [upd] ∧
    (∀ cur, (db.incidents.filter (fun i => i.id == input.incident_id)).head? = some cur →
      cur.status = input.status → db2.incidents = db.incidents) := by
  unfold createIncidentUpdate at h
  cases hf : db.incidents.filter (fun i => i.id == input.incident_id) with
  | nil =>
    rw [hf] at h
    exact absurd h (by simp)
  | cons r t =>
    rw [hf] at h
    simp only [] at h
    split at h
    · rename_i hcond
      rw [Prod.mk.injEq] at h
      obtain ⟨h1, h2⟩ := h
      rw [Except.ok.injEq] at h1
      constructor
      · rw [← h2, ← h1]
      · intro cur hc hcs
        simp only [List.head?_cons, Option.some.injEq] at hc
        subst hc
        simp [hcs] at hcond
    · rw [Prod.mk.injEq] at h
      obtain ⟨h1, h2⟩ := h
      rw [Except.ok.injEq] at h1
      constructor
      · rw [← h2, ← h1]
      · intro cur hc hcs
        rw [← h2]

/-- Update-record input for the C5 witness: status equal to the incident's
current `resolved`. -/
def witC5Input : CreateIncidentUpdateInput :=
  { incident_id := 1
    title := "t2"
    body := "b2"
    status := IncidentStatus.resolved }

/-- The incident-update record inserted by `createIncidentUpdate 11 dbC4 witC5Input`. -/
def witC5Rec : IncidentUpdate :=
  { id := 1
    incident_id := 1
    title := "t2"
    body := "b2"
    status := IncidentStatus.resolved
    created_at := 11
    updated_at := 11 }

/-- Witness for C5: with an unchanged status the record is still appended and
the incident row is untouched. -/
theorem C5_witness :
    createIncidentUpdate 11 dbC4 witC5Input =
      (Except.ok witC5Rec, { dbC4 with incidentUpdates := [witC5Rec] }) ∧
    ({ dbC4 with incidentUpdates := [witC5Rec] } : DB).incidentUpdates =
      dbC4.incidentUpdates ++ [witC5Rec] ∧
    ({ dbC4 with incidentUpdates := [witC5Rec] } : DB).incidents = dbC4.incidents :=
  ⟨rfl,
   (C5_createIncidentUpdate_append 11 dbC4 witC5Input witC5Rec
      { dbC4 with incidentUpdates := [witC5Rec] } rfl).1,
   (C5_createIncidentUpdate_append 11 dbC4 witC5Input witC5Rec
      { dbC4 with incidentUpdates := [witC5Rec] } rfl).2 witC4Incident rfl rfl⟩

/-! ## C8 -/

/-- When some requested component id is not an id of a component of the
incident's status page, the validation list of `createIncident` is non-empty. -/
theorem invalidComponentIds_ne_nil (db : DB) (input : CreateIncidentInput)
    (ids : List Nat) (cid : Nat) (hids : input.component_ids = some ids) (hmem : cid ∈ ids)
    (hnot : cid ∉ (db.components.filter
      (fun c => c.status_page_id == input.status_page_id)).map (fun c => c.id)) :
    invalidComponentIds db input ≠ [] := by
  unfold invalidComponentIds
  rw [hids]
  have hlen : 0 < ids.length := List.length_pos.mpr (List.ne_nil_of_mem hmem)
  simp only [hlen, if_pos]
  apply List.ne_nil_of_mem (a := cid)
  rw [List.mem_filter]
  refine ⟨hmem, ?_⟩
  simp [hnot]

/-- C8: when the status page does not exist, or some listed component id is not
a component of that status page, `createIncident` returns an error and the
database is unchanged — no incident row, no links, no component write
(validation completes before any write). -/
theorem C8_createIncident_validation (now : Nat) (db : DB) (input : CreateIncidentInput)
    (h : db.statusPages.filter (fun sp => sp.id == input.status_page_id) = [] ∨
         ∃ ids cid, input.component_ids = some ids ∧ cid ∈ ids ∧
           cid ∉ (db.components.filter
             (fun c => c.status_page_id == input.status_page_id)).map (fun c => c.id)) :
    (createIncident now db input).1.toOption = none ∧
    (createIncident now db input).2 = db := by
  unfold createIncident
  rcases h with hsp | ⟨ids, cid, hids, hmem, hnot⟩
  · rw [hsp]
    simp [Except.toOption]
  · by_cases hsp : (db.statusPages.filter (fun sp => sp.id == input.status_page_id)).length = 0
    · simp [hsp, Except.toOption]
    · have hinv : 0 < (invalidComponentIds db input).length :=
        List.length_pos.mpr (invalidComponentIds_ne_nil db input ids cid hids hmem hnot)
      simp [hsp, hinv, Except.toOption]

/-- Input for the C8 witness: references status page 2, which does not exist
in `dbA`. -/
def witC8Input : CreateIncidentInput :=
  { status_page_id := 2
    name := "X"
    description := "y"
    status := IncidentStatus.investigating
    impact := Impact.minor
    started_at := none
    component_ids := none }

/-- Witness for C8 at a missing status page: error result, database unchanged. -/
theorem C8_witness :
    (dbA.statusPages.filter (fun sp => sp.id == witC8Input.status_page_id) = [] ∨
     ∃ ids cid, witC8Input.component_ids = some ids ∧ cid ∈ ids ∧
       cid ∉ (dbA.components.filter
         (fun c => c.status_page_id == witC8Input.status_page_id)).map (fun c => c.id)) ∧
    (createIncident 5 dbA witC8Input).1.toOption = none ∧
    (createIncident 5 dbA witC8Input).2 = dbA :=
  ⟨Or.inl (by decide),
   C8_createIncident_validation 5 dbA witC8Input (Or.inl (by decide))⟩

/-! ## C9 -/

/-- C9: `updateComponentStatus` on an existing component overwrites its status
unconditionally (no severity guard) and appends exactly one metric row carrying
the same status and the current timestamp; on a missing component it returns
the `not found` error with the database unchanged. -/
theorem C9_updateComponentStatus (now : Nat) (db : DB) (input : UpdateComponentStatusInput) :
    (db.components.filter (fun c => c.id == input.component_id) ≠ [] →
      (updateComponentStatus now db input).2.components =
        db.components.map (fun c =>
          if c.id = input.component_id then { c with status := input.status, updated_at := now }
          else c) ∧
      (updateComponentStatus now db input).2.metrics =
        db.metrics ++
          [{ id := db.metrics.length + 1, component_id := input.component_id, timestamp := now,
             status := input.status, response_time := none, created_at := now }]) ∧
    (db.components.filter (fun c => c.id == input.component_id) = [] →
      updateComponentStatus now db input =
        (Except.error ("Component with id " ++ toString input.component_id ++ " not found"),
         db)) := by
  constructor
  · intro hne
    unfold updateComponentStatus
    cases hf : db.components.filter (fun c => c.id == input.component_id) with
    | nil => exact absurd hf hne
    | cons c0 t =>
      constructor
      · simp only []
        apply List.map_congr_left
        intro c hc
        by_cases hid : c.id = input.component_id <;> simp [hid]
      · simp only []
  · intro hnil
    unfold updateComponentStatus
    rw [hnil]

/-- Input for the C9 witness: set component 1 to `partial_outage`. -/
def witC9Input : UpdateComponentStatusInput :=
  { component_id := 1
    status := ComponentStatus.partial_outage }

/-- Witness for C9 on the existing fixture component. -/
theorem C9_witness :
    dbA.components.filter (fun c => c.id == witC9Input.component_id) ≠ [] ∧
    ((updateComponentStatus 7 dbA witC9Input).2.components =
      dbA.components.map (fun c =>
        if c.id = witC9Input.component_id then
          { c with status := witC9Input.status, updated_at := 7 }
        else c) ∧
     (updateComponentStatus 7 dbA witC9Input).2.metrics =
       dbA.metrics ++
         [{ id := dbA.metrics.length + 1, component_id := witC9Input.component_id,
            timestamp := 7, status := witC9Input.status, response_time := none,
            created_at := 7 }]) :=
  ⟨by decide, (C9_updateComponentStatus 7 dbA witC9Input).1 (by decide)⟩

/-! ## C10 -/

/-- Membership in the slug join implies all three filter conditions of the
handler's opening query. -/
theorem mem_publicPageJoin {db : DB} {slug : String} {p : Organization × StatusPage}
    (hp : p ∈ publicPageJoin db slug) :
    p.1 ∈ db.organizations ∧ p.2 ∈ db.statusPages ∧ p.2.organization_id = p.1.id ∧
    p.1.slug = slug ∧ p.2.is_public = true ∧ p.1.is_active = true := by
  unfold publicPageJoin at hp
  rw [List.mem_filter] at hp
  obtain ⟨hmem, hcond⟩ := hp
  rw [List.mem_flatMap] at hmem
  obtain ⟨org, horg, hmem2⟩ := hmem
  rw [List.mem_map] at hmem2
  obtain ⟨sp, hsp, heq⟩ := hmem2
  rw [List.mem_filter] at hsp
  obtain ⟨hsp1, hsp2⟩ := hsp
  subst heq
  simp only [Bool.and_eq_true, beq_iff_eq] at hcond hsp2
  exact ⟨horg, hsp1, hsp2, hcond.1.1, hcond.1.2, hcond.2⟩

/-- C10: `getPublicStatusPage` returns `none` — not an error — when no active
organization with the slug owns a public status page, and any page it does
return is public and owned by an active organization with the requested slug. -/
theorem C10_getPublicStatusPage (now : Nat) (db : DB) (slug : String) :
    ((¬ ∃ org ∈ db.organizations, ∃ sp ∈ db.statusPages,
        sp.organization_id = org.id ∧ org.slug = slug ∧ sp.is_public = true ∧
        org.is_active = true) →
      getPublicStatusPage now db slug = none) ∧
    (∀ r, getPublicStatusPage now db slug = some r →
      r.status_page.is_public = true ∧
      ∃ org ∈ db.organizations, org.id = r.status_page.organization_id ∧
        org.is_active = true ∧ org.slug = slug) := by
  constructor
  · intro hno
    have hnil : publicPageJoin db slug = [] := by
      cases hj : publicPageJoin db slug with
      | nil => rfl
      | cons p t =>
        exfalso
        have hp : p ∈ publicPageJoin db slug := by
          rw [hj]
          exact List.mem_cons_self p t
        obtain ⟨h1, h2, h3, h4, h5, h6⟩ := mem_publicPageJoin hp
        exact hno ⟨p.1, h1, p.2, h2, h3, h4, h5, h6⟩
    unfold getPublicStatusPage
    rw [hnil]
  · intro r hr
    unfold getPublicStatusPage at hr
    cases hj : publicPageJoin db slug with
    | nil =>
      rw [hj] at hr
      simp at hr
    | cons p t =>
      rw [hj] at hr
      simp only [Option.some.injEq] at hr
      obtain ⟨h1, h2, h3, h4, h5, h6⟩ := mem_publicPageJoin (hj ▸ List.mem_cons_self p t)
      rw [← hr]
      exact ⟨h5, p.1, h1, h3.symm, h6, h4⟩

/-- A status page identical to `pageA` but not public. -/
def pagePriv : StatusPage := { pageA with is_public := false }

/-- Database whose only status page is private. -/
def dbPriv : DB := { dbA with statusPages := [pagePriv] }

/-- Witness for C10: a private page yields `none` for its organization's slug. -/
theorem C10_witness :
    (¬ ∃ org ∈ dbPriv.organizations, ∃ sp ∈ dbPriv.statusPages,
        sp.organization_id = org.id ∧ org.slug = "acme" ∧ sp.is_public = true ∧
        org.is_active = true) ∧
    getPublicStatusPage 0 dbPriv "acme" = none :=
  ⟨by decide, (C10_getPublicStatusPage 0 dbPriv "acme").1 (by decide)⟩

end EdgeStatus
